import Mathlib

/-!
Verification development for the Fuelio fuel-management core.

The Python source (backend/app/domain/decision.py, backend/app/domain/forecast.py,
backend/app/services/fuel_strategy_optimizer.py) is shallowly embedded here.
Python floats are modelled exactly: the pure numeric modules (decision, forecast)
are embedded over `ℚ`; the geometry-touching optimizer pipeline is embedded over
`ℝ` because the haversine distance uses trigonometric functions.  Python's
`round(x, n)` (round-half-to-even on decimals) is modelled by `pyRound`/`roundTo`.
-/

namespace Fuelio

/-- Python `round` to an integer: round half to even (banker's rounding). -/
def pyRound {α : Type} [LinearOrderedField α] [FloorRing α] (x : α) : ℤ :=
  if x - ⌊x⌋ < 1/2 then ⌊x⌋
  else if 1/2 < x - ⌊x⌋ then ⌊x⌋ + 1
  else if ⌊x⌋ % 2 = 0 then ⌊x⌋ else ⌊x⌋ + 1

/-- Python `round(x, n)`: round to `n` decimal places, half to even. -/
def roundTo {α : Type} [LinearOrderedField α] [FloorRing α] (n : ℕ) (x : α) : α :=
  ((pyRound (x * 10 ^ n) : ℤ) : α) / 10 ^ n

theorem pyRound_le {α : Type} [LinearOrderedField α] [FloorRing α] (x : α) :
    ((pyRound x : ℤ) : α) ≤ x + 1/2 := by
  unfold pyRound
  split_ifs with h1 h2 h3
  · have := Int.floor_le x
    linarith
  · push_cast
    linarith
  · push_cast
    have h : x - (⌊x⌋ : α) = 1/2 := le_antisymm (not_lt.mp h2) (not_lt.mp h1)
    linarith
  · push_cast
    have h : x - (⌊x⌋ : α) = 1/2 := le_antisymm (not_lt.mp h2) (not_lt.mp h1)
    linarith

theorem le_pyRound {α : Type} [LinearOrderedField α] [FloorRing α] (x : α) :
    x - 1/2 ≤ ((pyRound x : ℤ) : α) := by
  unfold pyRound
  have hlt : x < (⌊x⌋ : α) + 1 := Int.lt_floor_add_one x
  split_ifs with h1 h2 h3
  · linarith
  · push_cast
    linarith
  · push_cast
    linarith
  · push_cast
    linarith

theorem pyRound_nonneg {α : Type} [LinearOrderedField α] [FloorRing α]
    (x : α) (hx : 0 ≤ x) : 0 ≤ pyRound x := by
  unfold pyRound
  have h0 : (0 : ℤ) ≤ ⌊x⌋ := Int.floor_nonneg.mpr hx
  split_ifs <;> omega

theorem pyRound_le_int {α : Type} [LinearOrderedField α] [FloorRing α]
    (x : α) (m : ℤ) (h : x ≤ (m : α)) : pyRound x ≤ m := by
  have h1 : ((pyRound x : ℤ) : α) ≤ (m : α) + 1/2 := le_trans (pyRound_le x) (by linarith)
  have h2 : ((pyRound x : ℤ) : α) < ((m + 1 : ℤ) : α) := by push_cast; linarith
  exact Int.lt_add_one_iff.mp (by exact_mod_cast h2)

theorem roundTo_le {α : Type} [LinearOrderedField α] [FloorRing α] (n : ℕ) (x : α) :
    roundTo n x ≤ x + 1 / (2 * 10 ^ n) := by
  unfold roundTo
  have hp : (0 : α) < 10 ^ n := by positivity
  rw [div_le_iff hp]
  have := pyRound_le (x * 10 ^ n)
  calc ((pyRound (x * 10 ^ n) : ℤ) : α) ≤ x * 10 ^ n + 1/2 := this
    _ = (x + 1 / (2 * 10 ^ n)) * 10 ^ n := by field_simp; ring

theorem le_roundTo {α : Type} [LinearOrderedField α] [FloorRing α] (n : ℕ) (x : α) :
    x - 1 / (2 * 10 ^ n) ≤ roundTo n x := by
  unfold roundTo
  have hp : (0 : α) < 10 ^ n := by positivity
  rw [le_div_iff hp]
  have := le_pyRound (x * 10 ^ n)
  calc (x - 1 / (2 * 10 ^ n)) * 10 ^ n = x * 10 ^ n - 1/2 := by field_simp; ring
    _ ≤ ((pyRound (x * 10 ^ n) : ℤ) : α) := this

theorem roundTo_nonneg {α : Type} [LinearOrderedField α] [FloorRing α]
    (n : ℕ) (x : α) (hx : 0 ≤ x) : 0 ≤ roundTo n x := by
  unfold roundTo
  have hp : (0 : α) < 10 ^ n := by positivity
  apply div_nonneg _ (le_of_lt hp)
  exact_mod_cast pyRound_nonneg _ (by positivity)

theorem int_le_pyRound {α : Type} [LinearOrderedField α] [FloorRing α]
    (x : α) (m : ℤ) (h : (m : α) ≤ x) : m ≤ pyRound x := by
  have h1 : ((m - 1 : ℤ) : α) < ((pyRound x : ℤ) : α) := by
    have := le_pyRound x
    push_cast
    linarith
  have h2 : m - 1 < pyRound x := by exact_mod_cast h1
  omega

theorem roundTo_le_of_le {α : Type} [LinearOrderedField α] [FloorRing α]
    (n : ℕ) (x : α) (m : ℤ) (h : x ≤ (m : α)) : roundTo n x ≤ (m : α) := by
  unfold roundTo
  have hp : (0 : α) < 10 ^ n := by positivity
  rw [div_le_iff hp]
  have hz : pyRound (x * 10 ^ n) ≤ m * 10 ^ n := by
    apply pyRound_le_int
    push_cast
    exact mul_le_mul_of_nonneg_right h hp.le
  calc ((pyRound (x * 10 ^ n) : ℤ) : α) ≤ ((m * 10 ^ n : ℤ) : α) := by exact_mod_cast hz
    _ = (m : α) * 10 ^ n := by push_cast; ring

theorem int_le_roundTo {α : Type} [LinearOrderedField α] [FloorRing α]
    (n : ℕ) (x : α) (m : ℤ) (h : (m : α) ≤ x) : (m : α) ≤ roundTo n x := by
  unfold roundTo
  have hp : (0 : α) < 10 ^ n := by positivity
  rw [le_div_iff hp]
  have hz : m * 10 ^ n ≤ pyRound (x * 10 ^ n) := by
    apply int_le_pyRound
    push_cast
    exact mul_le_mul_of_nonneg_right h hp.le
  calc (m : α) * 10 ^ n = ((m * 10 ^ n : ℤ) : α) := by push_cast; ring
    _ ≤ ((pyRound (x * 10 ^ n) : ℤ) : α) := by exact_mod_cast hz

/-! ## Decision module — backend/app/domain/decision.py (embedded over `ℚ`) -/

/-- `decision.VehicleConfig`. -/
structure VehicleConfig where
  tank_size_liters : ℚ
  efficiency_l_per_100km : ℚ
  reserve_fraction : ℚ

/-- `decision.DecisionInput`.  The fuel-anchor discriminant is the literal
string used in the source ("percent" or "last_full_fillup_date"). -/
structure DecisionInput where
  vehicle : VehicleConfig
  fuel_anchor_type : String
  fuel_percent : Option ℚ
  distance_since_fillup_km : Option ℚ
  planned_trip_km : Option ℚ
  today_price : Option ℚ
  predicted_tomorrow : Option ℚ

/-- `decision.DecisionResult`. -/
structure DecisionResult where
  decision : String
  severity : String
  confidence : ℚ
  liters_remaining : ℚ
  range_km : ℚ
  reserve_fraction : ℚ
  planned_trip_km : Option ℚ
  today_price : Option ℚ
  predicted_tomorrow : Option ℚ
  price_delta : Option ℚ
  price_trend : Option String

/-- `decision.calculate_liters_remaining`.  The Python guards
`anchor == "percent" and fuel_percent is not None` are rendered with
`Option.getD` under the corresponding `isSome` test. -/
def calculate_liters_remaining (vehicle : VehicleConfig) (fuel_anchor_type : String)
    (fuel_percent distance_since_fillup_km : Option ℚ) : ℚ :=
  if fuel_anchor_type = "percent" ∧ fuel_percent.isSome then
    vehicle.tank_size_liters * (fuel_percent.getD 0 / 100)
  else if fuel_anchor_type = "last_full_fillup_date" ∧ distance_since_fillup_km.isSome then
    max 0 (vehicle.tank_size_liters -
      distance_since_fillup_km.getD 0 * (vehicle.efficiency_l_per_100km / 100))
  else
    vehicle.tank_size_liters * (5/10)

/-- `decision.calculate_range_km`. -/
def calculate_range_km (liters_remaining reserve_liters efficiency : ℚ) : ℚ :=
  max 0 (liters_remaining - reserve_liters) / (efficiency / 100)

/-- `decision.calculate_price_trend`. -/
def calculate_price_trend (today_price predicted_tomorrow : Option ℚ) :
    Option ℚ × Option String :=
  match today_price, predicted_tomorrow with
  | some tp, some pt =>
    let delta := pt - tp
    if 2/100 ≤ delta then (some delta, some "rising")
    else if delta ≤ -(2/100) then (some delta, some "falling")
    else (some delta, some "flat")
  | _, _ => (none, none)

/-- Reserve liters as computed at the top of `decision.make_decision`. -/
def reserve_liters_of (inp : DecisionInput) : ℚ :=
  inp.vehicle.tank_size_liters * inp.vehicle.reserve_fraction

/-- Unrounded remaining liters of a decision input. -/
def liters_remaining_of (inp : DecisionInput) : ℚ :=
  calculate_liters_remaining inp.vehicle inp.fuel_anchor_type
    inp.fuel_percent inp.distance_since_fillup_km

/-- Unrounded usable range of a decision input. -/
def range_km_of (inp : DecisionInput) : ℚ :=
  calculate_range_km (liters_remaining_of inp) (reserve_liters_of inp)
    inp.vehicle.efficiency_l_per_100km

/-- Python truthiness of an optional number (`None` and `0.0` are falsy). -/
def optTruthy (o : Option ℚ) : Prop := o.getD 0 ≠ 0

instance (o : Option ℚ) : Decidable (optTruthy o) := by
  unfold optTruthy; infer_instance

/-- Guard of decision rule 1 (critical low fuel), on unrounded values. -/
def rule1_cond (inp : DecisionInput) : Prop :=
  range_km_of inp ≤ 30 ∨ liters_remaining_of inp ≤ reserve_liters_of inp

/-- Guard of decision rule 2 (planned trip exceeds range), before priority. -/
def rule2_cond (inp : DecisionInput) : Prop :=
  optTruthy inp.planned_trip_km ∧ inp.planned_trip_km.getD 0 > range_km_of inp

/-- Guard of decision rule 3 (planned trip close to range), before priority. -/
def rule3_cond (inp : DecisionInput) : Prop :=
  optTruthy inp.planned_trip_km ∧ inp.planned_trip_km.getD 0 > (7/10) * range_km_of inp

/-- Guard of decision rule 4 (rising prices, low range), before priority. -/
def rule4_cond (inp : DecisionInput) : Prop :=
  (calculate_price_trend inp.today_price inp.predicted_tomorrow).2 = some "rising" ∧
    range_km_of inp < 120

instance (inp : DecisionInput) : Decidable (rule1_cond inp) := by
  unfold rule1_cond; infer_instance

instance (inp : DecisionInput) : Decidable (rule2_cond inp) := by
  unfold rule2_cond; infer_instance

instance (inp : DecisionInput) : Decidable (rule3_cond inp) := by
  unfold rule3_cond; infer_instance

instance (inp : DecisionInput) : Decidable (rule4_cond inp) := by
  unfold rule4_cond; infer_instance

/-- Rule `i` fires: its guard holds and no earlier rule's guard holds. -/
def rule_fires (inp : DecisionInput) : Fin 5 → Prop
  | 0 => rule1_cond inp
  | 1 => ¬rule1_cond inp ∧ rule2_cond inp
  | 2 => ¬rule1_cond inp ∧ ¬rule2_cond inp ∧ rule3_cond inp
  | 3 => ¬rule1_cond inp ∧ ¬rule2_cond inp ∧ ¬rule3_cond inp ∧ rule4_cond inp
  | 4 => ¬rule1_cond inp ∧ ¬rule2_cond inp ∧ ¬rule3_cond inp ∧ ¬rule4_cond inp

/-- Verdict, severity and confidence produced by each rule. -/
def rule_outcome : Fin 5 → String × String × ℚ
  | 0 => ("FILL", "high", 95/100)
  | 1 => ("FILL", "high", 95/100)
  | 2 => ("FILL", "medium", 8/10)
  | 3 => ("FILL", "medium", 75/100)
  | 4 => ("NO_ACTION", "low", 7/10)

/-- `decision.make_decision`: the five-rule if/elif chain.  Rules 2 and 3 use
Python truthiness of `planned_trip_km` (`None`/`0.0` skip the rule); the rule
guards are the `rule*_cond` definitions above, which compare unrounded values. -/
def make_decision (inp : DecisionInput) : DecisionResult :=
  let pd := calculate_price_trend inp.today_price inp.predicted_tomorrow
  let dsc : String × String × ℚ :=
    if rule1_cond inp then ("FILL", "high", 95/100)
    else if rule2_cond inp then ("FILL", "high", 95/100)
    else if rule3_cond inp then ("FILL", "medium", 8/10)
    else if rule4_cond inp then ("FILL", "medium", 75/100)
    else ("NO_ACTION", "low", 7/10)
  { decision := dsc.1
    severity := dsc.2.1
    confidence := dsc.2.2
    liters_remaining := roundTo 1 (liters_remaining_of inp)
    range_km := roundTo 0 (range_km_of inp)
    reserve_fraction := inp.vehicle.reserve_fraction
    planned_trip_km := inp.planned_trip_km
    today_price := inp.today_price
    predicted_tomorrow := inp.predicted_tomorrow
    price_delta :=
      match pd.1 with
      | none => none
      | some d => if d = 0 then none else some (roundTo 3 d)
    price_trend := pd.2 }

/-- The index of the first rule whose guard holds (the rule that fires). -/
def rule_index (inp : DecisionInput) : Fin 5 :=
  if rule1_cond inp then 0
  else if rule2_cond inp then 1
  else if rule3_cond inp then 2
  else if rule4_cond inp then 3
  else 4

theorem rule_fires_rule_index (inp : DecisionInput) : rule_fires inp (rule_index inp) := by
  unfold rule_index
  split_ifs with h1 h2 h3 h4 <;> simp_all [rule_fires]

theorem rule_fires_eq_rule_index (inp : DecisionInput) (i : Fin 5)
    (h : rule_fires inp i) : i = rule_index inp := by
  have hr := rule_fires_rule_index inp
  rcases hi : rule_index inp with ⟨iv, hiv⟩
  rw [hi] at hr
  fin_cases i <;> interval_cases iv <;> simp_all [rule_fires]

theorem make_decision_outcome (inp : DecisionInput) :
    ((make_decision inp).decision, (make_decision inp).severity,
      (make_decision inp).confidence) = rule_outcome (rule_index inp) := by
  unfold make_decision rule_index
  split_ifs <;> simp [rule_outcome]

/-! ## Forecast module — backend/app/domain/forecast.py (parametric over a
linear ordered field so it can be instantiated at `ℚ` and, inside the
optimizer pipeline, at `ℝ`). -/

/-- `forecast.calculate_trend`: ±0.02 threshold classification. -/
def calculate_trend {α : Type} [LinearOrderedField α] (today_price predicted_price : α) :
    String :=
  if 2/100 ≤ predicted_price - today_price then "rising"
  else if predicted_price - today_price ≤ -(2/100) then "falling"
  else "flat"

/-- One entry of `forecast.generate_forecast`'s result.  The calendar date
string (`base_date + i` in ISO format) is environment-dependent and is
represented by the day offset `i` alone. -/
structure ForecastEntry (α : Type) where
  day_offset : ℕ
  predicted_price : α
  delta_from_today : α
  trend : String
  deriving DecidableEq

/-- Ordinary-least-squares fit of `y` against x-values `0, 1, …, n-1`,
returning `(slope, intercept)`; this is what `sklearn.LinearRegression`
computes in `generate_forecast` (slope `0` for a single sample). -/
def ols_fit {α : Type} [LinearOrderedField α] (y : List α) : α × α :=
  let n : α := (y.length : α)
  let xbar := (n - 1) / 2
  let ybar := y.sum / n
  let sxx := (List.range y.length).foldl (fun acc i => acc + ((i : α) - xbar) ^ 2) 0
  let sxy := y.enum.foldl (fun acc p => acc + ((p.1 : α) - xbar) * (p.2 - ybar)) 0
  let slope := if sxx = 0 then 0 else sxy / sxx
  (slope, ybar - slope * xbar)

/-- `forecast.generate_forecast`.  `historical_prices` is most-recent-first
(`[today, yesterday, …]`, per the source docstring); the source reverses it
into chronological order before fitting, extrapolates to days `n … n+days-1`,
floors predictions at `0.01`, and classifies each against `today_price`. -/
def generate_forecast {α : Type} [LinearOrderedField α] [FloorRing α]
    (today_price : α) (historical_prices : List α) (days : ℕ) : List (ForecastEntry α) :=
  if historical_prices = [] then []
  else
    let y := historical_prices.reverse
    let n := y.length
    let fit := ols_fit y
    (List.range days).map fun j =>
      let pred := max (1/100) (fit.2 + fit.1 * ((n + j : ℕ) : α))
      { day_offset := j + 1
        predicted_price := roundTo 3 pred
        delta_from_today := roundTo 3 (pred - today_price)
        trend := calculate_trend today_price pred }

/-! ## Claim theorems for the decision and forecast modules -/

/-- The worked example of claim C4: capacity 50 L, efficiency 8 L/100km,
reserve fraction 0.1, fuel anchor "percent" at 5 %. -/
def c4_example_input : DecisionInput :=
  { vehicle := ⟨50, 8, 1/10⟩
    fuel_anchor_type := "percent"
    fuel_percent := some 5
    distance_since_fillup_km := none
    planned_trip_km := none
    today_price := none
    predicted_tomorrow := none }

/-- C2 counterexample: feeding the historical series oldest→newest
(`[1.1, …, 1.7]`, today 1.7), as the claim words it, makes `generate_forecast`
reverse it into a descending series, so the first forecasted day predicts 1.0,
nowhere near the linear continuation 1.8. -/
theorem generate_forecast_oldest_first_fails :
    generate_forecast (17/10 : ℚ)
        [11/10, 12/10, 13/10, 14/10, 15/10, 16/10, 17/10] 1 =
      [⟨1, 1, -(7/10), "falling"⟩] ∧
    ¬|(1 : ℚ) - 9/5| ≤ 1/100 := by
  constructor
  · norm_num [generate_forecast, ols_fit, roundTo, pyRound, calculate_trend,
      List.enum, List.enumFrom, List.range_succ, ForecastEntry.mk.injEq]
    rw [if_neg (List.cons_ne_nil _ _)]
    norm_num [ForecastEntry.mk.injEq, Int.fract]
  · rw [abs_sub_comm, abs_of_nonneg (by norm_num)]
    norm_num

/-- C2 (amended): for a perfectly linear historical series given
most-recent-first (`[1.7, 1.6, …, 1.1]`, today 1.7) — the order the source
docstring and its tests use — `generate_forecast` reverses it to chronological
day indices 0..6, fits the OLS line, and its first forecasted day predicts the
exact linear continuation 1.8 (delta 0.1, trend "rising"). -/
theorem generate_forecast_linear_extrapolation :
    generate_forecast (17/10 : ℚ)
        [17/10, 16/10, 15/10, 14/10, 13/10, 12/10, 11/10] 1 =
      [⟨1, 9/5, 1/10, "rising"⟩] := by
  norm_num [generate_forecast, ols_fit, roundTo, pyRound, calculate_trend,
    List.enum, List.enumFrom, List.range_succ, ForecastEntry.mk.injEq]
  exact List.cons_ne_nil _ _

/-- C4: for every valid decision input, exactly one of the five decision rules
fires, the fired rule determines verdict/severity/confidence, and rule 1
dominates: whenever the unrounded usable range is ≤ 30 km or the unrounded
remaining liters are ≤ the reserve liters, the verdict is FILL with severity
"high" and confidence 0.95 regardless of trip or price-trend inputs.  The
claim's example (capacity 50, efficiency 8, reserve 0.1, fuel 5 % → remaining
2.5 L ≤ reserve 5 L) yields FILL/high. -/
theorem make_decision_rule_partition (inp : DecisionInput)
    (htank : 0 < inp.vehicle.tank_size_liters)
    (heff : 0 < inp.vehicle.efficiency_l_per_100km)
    (hres0 : 0 ≤ inp.vehicle.reserve_fraction)
    (hres1 : inp.vehicle.reserve_fraction < 1) :
    (∃! i : Fin 5, rule_fires inp i) ∧
    (∀ i : Fin 5, rule_fires inp i →
      ((make_decision inp).decision, (make_decision inp).severity,
        (make_decision inp).confidence) = rule_outcome i) ∧
    (rule1_cond inp →
      (make_decision inp).decision = "FILL" ∧
      (make_decision inp).severity = "high" ∧
      (make_decision inp).confidence = 95/100) ∧
    ((make_decision c4_example_input).decision = "FILL" ∧
      (make_decision c4_example_input).severity = "high") := by
  refine ⟨⟨rule_index inp, rule_fires_rule_index inp,
    fun i hi => rule_fires_eq_rule_index inp i hi⟩, ?_, ?_, ?_⟩
  · intro i hi
    rw [rule_fires_eq_rule_index inp i hi]
    exact make_decision_outcome inp
  · intro h1
    have houtcome := make_decision_outcome inp
    have hidx : rule_index inp = 0 := by unfold rule_index; simp [h1]
    rw [hidx] at houtcome
    have h1' := congrArg Prod.fst houtcome
    have h2' := congrArg (fun p => p.2.1) houtcome
    have h3' := congrArg (fun p => p.2.2) houtcome
    exact ⟨h1', h2', h3'⟩
  · have hcond : rule1_cond c4_example_input := by
      unfold rule1_cond liters_remaining_of reserve_liters_of c4_example_input
      right
      norm_num [calculate_liters_remaining]
    have houtcome := make_decision_outcome c4_example_input
    have hidx : rule_index c4_example_input = 0 := by unfold rule_index; simp [hcond]
    rw [hidx] at houtcome
    exact ⟨congrArg Prod.fst houtcome, congrArg (fun p => p.2.1) houtcome⟩

/-- Witness for C4 at the claim's example input (capacity 50 L, efficiency
8 L/100km, reserve 0.1, fuel 5 %): all validity hypotheses hold and the
theorem applies. -/
theorem make_decision_rule_partition_witness :
    (∃! i : Fin 5, rule_fires c4_example_input i) ∧
    (make_decision c4_example_input).decision = "FILL" ∧
    (make_decision c4_example_input).severity = "high" :=
  ⟨(make_decision_rule_partition c4_example_input (by norm_num [c4_example_input])
      (by norm_num [c4_example_input]) (by norm_num [c4_example_input])
      (by norm_num [c4_example_input])).1,
   (make_decision_rule_partition c4_example_input (by norm_num [c4_example_input])
      (by norm_num [c4_example_input]) (by norm_num [c4_example_input])
      (by norm_num [c4_example_input])).2.2.2⟩

/-- C5: the two trend classifiers — `forecast.calculate_trend` and
`decision.calculate_price_trend` — agree for every pair of present prices,
and both classify a delta of exactly +0.02 as "rising", exactly −0.02 as
"falling", and anything strictly between as "flat". -/
theorem trend_classifiers_agree (t p : ℚ) :
    (calculate_price_trend (some t) (some p)).2 = some (calculate_trend t p) ∧
    (p - t = 2/100 → calculate_trend t p = "rising") ∧
    (p - t = -(2/100) → calculate_trend t p = "falling") ∧
    (-(2/100) < p - t → p - t < 2/100 → calculate_trend t p = "flat") := by
  refine ⟨?_, ?_, ?_, ?_⟩
  · unfold calculate_price_trend calculate_trend
    dsimp only
    split_ifs <;> rfl
  · intro h
    unfold calculate_trend
    rw [if_pos (by linarith)]
  · intro h
    unfold calculate_trend
    rw [if_neg (by rw [h]; norm_num), if_pos (by linarith)]
  · intro h1 h2
    unfold calculate_trend
    rw [if_neg (by linarith), if_neg (by intro hc; linarith)]

/-- Witness for C5 at concrete prices: agreement at (1, 1.02), and the three
threshold classifications at deltas +0.02, −0.02 and 0. -/
theorem trend_classifiers_agree_witness :
    (calculate_price_trend (some (1 : ℚ)) (some (51/50))).2 =
      some (calculate_trend (1 : ℚ) (51/50)) ∧
    calculate_trend (1 : ℚ) (51/50) = "rising" ∧
    calculate_trend (1 : ℚ) (49/50) = "falling" ∧
    calculate_trend (1 : ℚ) 1 = "flat" :=
  ⟨(trend_classifiers_agree 1 (51/50)).1,
   (trend_classifiers_agree 1 (51/50)).2.1 (by norm_num),
   (trend_classifiers_agree 1 (49/50)).2.2.1 (by norm_num),
   (trend_classifiers_agree 1 1).2.2.2 (by norm_num) (by norm_num)⟩

/-- C9: when both prices are provided and equal (delta exactly 0),
`make_decision` reports `price_delta = None` (Python `0.0` is falsy in
`round(price_delta, 3) if price_delta else None`) while `price_trend` is
"flat"; and whenever `price_delta` is a number, it is the 3-decimal rounding
of a non-zero unrounded delta. -/
theorem calculate_price_trend_fst (t p : ℚ) :
    (calculate_price_trend (some t) (some p)).1 = some (p - t) := by
  unfold calculate_price_trend
  dsimp only
  split_ifs <;> rfl

theorem make_decision_price_delta (inp : DecisionInput) :
    (make_decision inp).price_delta =
      match (calculate_price_trend inp.today_price inp.predicted_tomorrow).1 with
      | none => none
      | some d => if d = 0 then none else some (roundTo 3 d) := rfl

theorem make_decision_price_trend (inp : DecisionInput) :
    (make_decision inp).price_trend =
      (calculate_price_trend inp.today_price inp.predicted_tomorrow).2 := rfl

theorem price_delta_none_when_zero (t : ℚ) (inp : DecisionInput)
    (ht : inp.today_price = some t) (hp : inp.predicted_tomorrow = some t) :
    (make_decision inp).price_delta = none ∧
    (make_decision inp).price_trend = some "flat" ∧
    (∀ inp2 : DecisionInput, ∀ v : ℚ, (make_decision inp2).price_delta = some v →
      ∃ t2 p2 : ℚ, inp2.today_price = some t2 ∧ inp2.predicted_tomorrow = some p2 ∧
        p2 - t2 ≠ 0 ∧ v = roundTo 3 (p2 - t2)) := by
  refine ⟨?_, ?_, ?_⟩
  · rw [make_decision_price_delta, ht, hp, calculate_price_trend_fst]
    simp
  · rw [make_decision_price_trend, ht, hp]
    norm_num [calculate_price_trend]
  · intro inp2 v hv
    rw [make_decision_price_delta] at hv
    rcases h2 : inp2.today_price with _ | t2 <;>
      rcases h3 : inp2.predicted_tomorrow with _ | p2 <;> rw [h2, h3] at hv
    · simp [calculate_price_trend] at hv
    · simp [calculate_price_trend] at hv
    · simp [calculate_price_trend] at hv
    · rw [calculate_price_trend_fst] at hv
      by_cases hd : p2 - t2 = 0
      · rw [show (match (some (p2 - t2) : Option ℚ) with
          | none => (none : Option ℚ)
          | some d => if d = 0 then none else some (roundTo 3 d)) =
            if p2 - t2 = 0 then none else some (roundTo 3 (p2 - t2)) from rfl,
          if_pos hd] at hv
        exact absurd hv (by simp)
      · rw [show (match (some (p2 - t2) : Option ℚ) with
          | none => (none : Option ℚ)
          | some d => if d = 0 then none else some (roundTo 3 d)) =
            if p2 - t2 = 0 then none else some (roundTo 3 (p2 - t2)) from rfl,
          if_neg hd] at hv
        exact ⟨t2, p2, rfl, rfl, hd, (Option.some_injective ℚ hv).symm⟩

/-- A decision input whose today and predicted-tomorrow prices are both 1.45. -/
def c9_example_input : DecisionInput :=
  { vehicle := ⟨50, 8, 1/10⟩
    fuel_anchor_type := "percent"
    fuel_percent := some 80
    distance_since_fillup_km := none
    planned_trip_km := none
    today_price := some (29/20)
    predicted_tomorrow := some (29/20) }

/-- Witness for C9 at a concrete input: today and predicted both 1.45. -/
theorem price_delta_none_when_zero_witness :
    (make_decision c9_example_input).price_delta = none ∧
    (make_decision c9_example_input).price_trend = some "flat" :=
  ⟨(price_delta_none_when_zero (29/20) c9_example_input rfl rfl).1,
   (price_delta_none_when_zero (29/20) c9_example_input rfl rfl).2.1⟩

/-! ## Optimizer module — backend/app/services/fuel_strategy_optimizer.py.
Embedded over `ℝ` (the haversine distance uses trigonometric functions, so
these definitions are necessarily noncomputable in Lean). -/

/-- `math.radians`. -/
noncomputable def radians (x : ℝ) : ℝ := x * Real.pi / 180

/-- `math.atan2` (standard two-argument arctangent). -/
noncomputable def atan2 (y x : ℝ) : ℝ :=
  if 0 < x then Real.arctan (y / x)
  else if x < 0 ∧ 0 ≤ y then Real.arctan (y / x) + Real.pi
  else if x < 0 ∧ y < 0 then Real.arctan (y / x) - Real.pi
  else if x = 0 ∧ 0 < y then Real.pi / 2
  else if x = 0 ∧ y < 0 then -(Real.pi / 2)
  else 0

/-- `haversine_km`: great-circle distance with Earth radius 6371 km. -/
noncomputable def haversine_km (lat1 lng1 lat2 lng2 : ℝ) : ℝ :=
  let lat1_rad := radians lat1
  let lat2_rad := radians lat2
  let dlat := radians (lat2 - lat1)
  let dlng := radians (lng2 - lng1)
  let a := Real.sin (dlat/2) ^ 2 +
    Real.cos lat1_rad * Real.cos lat2_rad * Real.sin (dlng/2) ^ 2
  6371 * 2 * atan2 (Real.sqrt a) (Real.sqrt (1 - a))

/-- `point_to_segment_distance`: clamped projection onto the segment, then
haversine from the point to the closest point. -/
noncomputable def point_to_segment_distance (point seg_start seg_end : ℝ × ℝ) : ℝ :=
  let abx := seg_end.1 - seg_start.1
  let aby := seg_end.2 - seg_start.2
  let apx := point.1 - seg_start.1
  let apy := point.2 - seg_start.2
  let ab_sq := abx*abx + aby*aby
  if ab_sq = 0 then haversine_km point.1 point.2 seg_start.1 seg_start.2
  else
    let t := max 0 (min 1 ((apx*abx + apy*aby) / ab_sq))
    haversine_km point.1 point.2 (seg_start.1 + t * abx) (seg_start.2 + t * aby)

theorem haversine_km_self (lat lng : ℝ) : haversine_km lat lng lat lng = 0 := by
  unfold haversine_km radians atan2
  norm_num

/-- `TripPoint`. -/
structure TripPoint where
  lat : ℝ
  lng : ℝ
  km_from_start : ℝ

/-- A raw station directory entry (the Python `dict` consumed by
`find_stations_along_route`); absent keys are `none`. -/
structure StationDict where
  id : Option String
  place_id : Option String
  name : Option String
  brand : Option String
  address : Option String
  lat : ℝ
  lng : ℝ
  regular : Option ℝ

/-- `GasStationData`.  `base_prices` is the day-offset → price dict. -/
structure GasStationData where
  id : String
  name : String
  brand : String
  lat : ℝ
  lng : ℝ
  address : String
  km_along_route : ℝ
  base_prices : ℕ → Option ℝ
  best_card : Option String
  cashback_percent : ℝ

/-- `GasStationData.effective_price`: base price for the day (default: day-0
price, default 1.50) discounted by the cashback percent. -/
noncomputable def GasStationData.effective_price (s : GasStationData) (day_offset : ℕ) : ℝ :=
  ((s.base_prices day_offset).getD ((s.base_prices 0).getD (3/2))) *
    (1 - s.cashback_percent / 100)

/-- State of the per-station loop in `find_stations_along_route`:
`min_dist` starts at `float('inf')`, modelled as `none`. -/
structure ScanState where
  min_dist : Option ℝ
  closest_km : ℝ
  cumulative_km : ℝ

/-- Consecutive-point segments of a route polyline. -/
def routeSegments (route : List TripPoint) : List (TripPoint × TripPoint) :=
  route.zip route.tail

/-- Distance from a station location to one route segment. -/
noncomputable def dist_to (slat slng : ℝ) (seg : TripPoint × TripPoint) : ℝ :=
  point_to_segment_distance (slat, slng) (seg.1.lat, seg.1.lng) (seg.2.lat, seg.2.lng)

/-- Haversine length of one route segment. -/
noncomputable def seg_length (seg : TripPoint × TripPoint) : ℝ :=
  haversine_km seg.1.lat seg.1.lng seg.2.lat seg.2.lng

/-- One iteration of the inner loop of `find_stations_along_route`. -/
noncomputable def scan_step (slat slng : ℝ) (st : ScanState) (seg : TripPoint × TripPoint) :
    ScanState :=
  let seg_dist := dist_to slat slng seg
  let seg_len := seg_length seg
  let hit : Bool :=
    match st.min_dist with
    | none => true
    | some m => decide (seg_dist < m)
  if hit then
    { min_dist := some seg_dist
      closest_km := st.cumulative_km + seg_len / 2
      cumulative_km := st.cumulative_km + seg_len }
  else
    { st with cumulative_km := st.cumulative_km + seg_len }

/-- The inner loop of `find_stations_along_route`: track the minimum
point-to-segment distance (strict improvement), the along-route midpoint of
the minimising segment, and the cumulative km. -/
noncomputable def scan_segments (slat slng : ℝ) (segs : List (TripPoint × TripPoint)) :
    ScanState :=
  segs.foldl (scan_step slat slng) ⟨none, 0, 0⟩

/-- The `GasStationData` constructed by `find_stations_along_route` for a kept
station (its `base_prices` dict is `{0: regular or 1.50}`). -/
noncomputable def station_of_dict (st : StationDict) (closest_km : ℝ) : GasStationData :=
  { id := st.id.getD (st.place_id.getD "")
    name := st.name.getD "Gas Station"
    brand := st.brand.getD "Unknown"
    lat := st.lat
    lng := st.lng
    address := st.address.getD ""
    km_along_route := closest_km
    base_prices := fun d => if d = 0 then some (st.regular.getD (3/2)) else none
    best_card := none
    cashback_percent := 0 }

/-- Minimum clamped-projection distance from a station to the route's
segments (`none` when the route has no segment, i.e. fewer than 2 points). -/
noncomputable def station_min_dist (route : List TripPoint) (st : StationDict) : Option ℝ :=
  (scan_segments st.lat st.lng (routeSegments route)).min_dist

/-- `find_stations_along_route`: keep stations whose minimum distance is
within the radius, then sort ascending by `km_along_route` (Python's stable
`list.sort` is modelled by insertion sort). -/
noncomputable def find_stations_along_route (route_points : List TripPoint)
    (all_stations : List StationDict) (radius_km : ℝ) : List GasStationData :=
  let found := all_stations.filterMap fun st =>
    let sc := scan_segments st.lat st.lng (routeSegments route_points)
    match sc.min_dist with
    | some d => if d ≤ radius_km then some (station_of_dict st sc.closest_km) else none
    | none => none
  found.insertionSort (fun a b => a.km_along_route ≤ b.km_along_route)

/-- A credit-card benefit entry (the Python `dict`); `partner_stations` is
carried by the input contract but never read by `apply_card_benefits`. -/
structure CardDict where
  provider : Option String
  cashback : Option ℝ
  partner_stations : List String

/-- The numeric cashback of a card entry: `card.get('cashback', 0) or 0`
(both a missing key and `None`/`0` give `0`). -/
noncomputable def card_cb (card : CardDict) : ℝ := card.cashback.getD 0

/-- One iteration of the best-cashback loop of `apply_card_benefits`:
`if cashback > best_cashback:` update (strict, so ties keep the earlier
card). -/
noncomputable def card_step (acc : ℝ × Option String) (card : CardDict) : ℝ × Option String :=
  let cashback := card_cb card
  if acc.1 < cashback then (cashback, some (card.provider.getD "Unknown Card"))
  else acc

/-- The best-cashback resolution loop of `apply_card_benefits` (identical for
every station): fold from `(0.0, None)`. -/
noncomputable def resolve_best_card (user_cards : List CardDict) : ℝ × Option String :=
  user_cards.foldl card_step (0, none)

/-- `apply_card_benefits` (in-place mutation modelled as a map). -/
noncomputable def apply_card_benefits (stations : List GasStationData)
    (user_cards : List CardDict) : List GasStationData :=
  stations.map fun s =>
    { s with cashback_percent := (resolve_best_card user_cards).1
             best_card := (resolve_best_card user_cards).2 }

/-- `add_price_forecasts`: write `generate_forecast`'s predicted prices into
`base_prices` under keys 1..forecast_days (history is 7 copies of today). -/
noncomputable def add_price_forecasts (stations : List GasStationData)
    (forecast_days : ℕ) : List GasStationData :=
  stations.map fun s =>
    let today_price := (s.base_prices 0).getD (3/2)
    let forecasts := generate_forecast today_price (List.replicate 7 today_price) forecast_days
    { s with base_prices := fun d =>
        match d with
        | 0 => s.base_prices 0
        | k + 1 =>
          match forecasts.get? k with
          | some fc => some fc.predicted_price
          | none => s.base_prices (k + 1) }

/-- `FillUpStop`. -/
structure FillUpStop where
  station : GasStationData
  day_offset : ℕ
  liters_to_fill : ℝ
  effective_price : ℝ
  base_price : ℝ
  card_to_use : Option String
  fuel_level_before : ℝ
  fuel_level_after : ℝ
  km_at_stop : ℝ
  savings_from_card : ℝ
  savings_from_timing : ℝ

/-- One sample of the fuel projection (`{"km": …, "fuel_pct": …, "action": …}`;
the action string's formatted liters figure is display-only and omitted). -/
structure ProjEntry where
  km : ℤ
  fuel_pct : ℝ
  action : Option String

/-- `OptimizationResult`.  Reasoning strings with interpolated numbers are
modelled by fixed placeholder text (display-only). -/
structure OptimizationResult where
  stops : List FillUpStop
  total_cost : ℝ
  total_savings : ℝ
  reasoning : List String
  fuel_projection : List ProjEntry
  solver_status : String

/-- Total route length: sum of haversine lengths of consecutive segments
(computed identically in `build_optimization_model`, `optimize_fuel_strategy`
and `build_fuel_projection`). -/
noncomputable def total_route_km (route_points : List TripPoint) : ℝ :=
  (routeSegments route_points).foldl
    (fun acc seg => acc + haversine_km seg.1.lat seg.1.lng seg.2.lat seg.2.lng) 0

/-- Python `int()`: truncation toward zero. -/
noncomputable def pyInt (x : ℝ) : ℤ := if 0 ≤ x then ⌊x⌋ else ⌈x⌉

/-- `list(range(0, int(total_km) + 1, 10))`. -/
noncomputable def sample_base (total_km : ℝ) : List ℤ :=
  if pyInt total_km < 0 then []
  else (List.range ((pyInt total_km).toNat / 10 + 1)).map (fun (i : ℕ) => 10 * (i : ℤ))

/-- The km sample points: `range(0, int(total_km)+1, 10)`, then append
`int(total_km)` unless `total_km` already equals one of the samples. -/
noncomputable def sample_points_of (total_km : ℝ) : List ℤ :=
  if total_km ∈ (sample_base total_km).map (fun z => (z : ℝ)) then sample_base total_km
  else sample_base total_km ++ [pyInt total_km]

/-- Insert into the `stop_kms` dict: an existing key's value is overwritten in
place, a new key is appended (Python dict insertion-order semantics). -/
noncomputable def insert_stop (l : List (ℝ × FillUpStop)) (kv : ℝ × FillUpStop) :
    List (ℝ × FillUpStop) :=
  if l.any (fun p => decide (p.1 = kv.1)) then
    l.map (fun p => if p.1 = kv.1 then (p.1, kv.2) else p)
  else l ++ [kv]

/-- `stop_kms = {s.km_at_stop: s for s in stops}`. -/
noncomputable def stop_kms_of (stops : List FillUpStop) : List (ℝ × FillUpStop) :=
  stops.foldl (fun acc s => insert_stop acc (s.km_at_stop, s)) []

/-- The per-sample fill loop of `build_fuel_projection`: every stop within
5 km of the sample adds its liters, clamped to the tank size. -/
noncomputable def apply_stops (tank_size : ℝ) (km : ℤ) (stop_kms : List (ℝ × FillUpStop))
    (start : ℝ × Option String) : ℝ × Option String :=
  stop_kms.foldl
    (fun acc p =>
      if |(km : ℝ) - p.1| < 5 then
        (min (acc.1 + p.2.liters_to_fill) tank_size,
          some ("FILL at " ++ p.2.station.name))
      else acc)
    start

/-- One sample of the projection loop together with the internal fuel state:
`fuel_before_stops` is the level right after subtracting consumption,
`fuel_after_stops` the level carried to the next sample (only the displayed
percentage is clamped at 0, never the state). -/
structure ProjSample where
  entry : ProjEntry
  fuel_before_stops : ℝ
  fuel_after_stops : ℝ

/-- The main loop of `build_fuel_projection` over the km sample points. -/
noncomputable def proj_loop (tank_size efficiency : ℝ) (stop_kms : List (ℝ × FillUpStop)) :
    ℤ → ℝ → List ℤ → List ProjSample
  | _, _, [] => []
  | prev_km, fuel, km :: rest =>
    let consumed := ((km : ℝ) - (prev_km : ℝ)) * efficiency / 100
    let pre := fuel - consumed
    let after := apply_stops tank_size km stop_kms (pre, none)
    { entry :=
        { km := km
          fuel_pct := roundTo 1 (max 0 (after.1 / tank_size * 100))
          action := after.2 }
      fuel_before_stops := pre
      fuel_after_stops := after.1 } :: proj_loop tank_size efficiency stop_kms km after.1 rest

/-- `build_fuel_projection`. -/
noncomputable def build_fuel_projection (stops : List FillUpStop)
    (route_points : List TripPoint) (initial_fuel tank_size efficiency : ℝ) :
    List ProjEntry :=
  (proj_loop tank_size efficiency (stop_kms_of stops) 0 initial_fuel
    (sample_points_of (total_route_km route_points))).map (fun s => s.entry)

/-- The reachable candidates of `solve_greedy_heuristic`: stations within the
range drivable on the current fuel, sorted ascending (stably) by today's
effective price. -/
noncomputable def greedy_candidates (stations : List GasStationData)
    (initial_fuel efficiency : ℝ) : List GasStationData :=
  (stations.filter
      (fun s => decide (s.km_along_route ≤ initial_fuel / efficiency * 100))).insertionSort
    (fun a b => a.effective_price 0 ≤ b.effective_price 0)

/-- `solve_greedy_heuristic`.  The Python metadata dict is passed as explicit
arguments (`stations`, `tank_size`, `initial_fuel`, `total_fuel_needed`,
`efficiency`, `total_km`, `route_points`). -/
noncomputable def solve_greedy_heuristic (stations : List GasStationData)
    (tank_size initial_fuel fuel_needed efficiency total_km : ℝ)
    (route_points : List TripPoint) : OptimizationResult :=
  if fuel_needed ≤ initial_fuel then
    { stops := []
      total_cost := 0
      total_savings := 0
      reasoning := ["No stops needed - you have enough fuel to reach destination!"]
      fuel_projection := build_fuel_projection [] route_points initial_fuel tank_size efficiency
      solver_status := "heuristic_no_stop" }
  else
    match greedy_candidates stations initial_fuel efficiency with
    | [] =>
      { stops := []
        total_cost := 0
        total_savings := 0
        reasoning := ["No reachable stations found with current fuel."]
        fuel_projection := []
        solver_status := "heuristic_failed" }
    | best_station :: _ =>
      let dist_remaining := total_km - best_station.km_along_route
      let fuel_for_remainder := dist_remaining * efficiency / 100
      let target_fill := fuel_for_remainder + 5
      let fuel_on_arrival := initial_fuel - best_station.km_along_route * efficiency / 100
      let liters_to_add := min (target_fill - fuel_on_arrival) (tank_size - fuel_on_arrival)
      let price := best_station.effective_price 0
      let base_price := (best_station.base_prices 0).getD (3/2)
      let savings := liters_to_add * base_price * (best_station.cashback_percent / 100)
      let stop : FillUpStop :=
        { station := best_station
          day_offset := 0
          liters_to_fill := roundTo 1 liters_to_add
          effective_price := roundTo 3 price
          base_price := roundTo 3 base_price
          card_to_use := best_station.best_card
          fuel_level_before := roundTo 1 fuel_on_arrival
          fuel_level_after := roundTo 1 (fuel_on_arrival + liters_to_add)
          km_at_stop := best_station.km_along_route
          savings_from_card := roundTo 2 savings
          savings_from_timing := 0 }
      { stops := [stop]
        total_cost := roundTo 2 (liters_to_add * price)
        total_savings := roundTo 2 savings
        reasoning := ["Heuristic Recommendation (Optimizer unavailable):",
          "Fill at the cheapest reachable station along your route."]
        fuel_projection := build_fuel_projection [stop] route_points initial_fuel tank_size efficiency
        solver_status := "heuristic_optimal" }

/-- The data of the Pyomo model built by `build_optimization_model`
(the metadata dict's fields are included). -/
structure FuelModel where
  stations : List GasStationData
  route_points : List TripPoint
  num_stations : ℕ
  num_days : ℕ
  tank_size : ℝ
  efficiency : ℝ
  total_km : ℝ
  total_fuel_needed : ℝ
  initial_fuel : ℝ
  reserve_liters : ℝ
  eff_prices : ℕ → ℕ → ℝ

/-- `build_optimization_model`; raising `ValueError` on an empty station list
is modelled by `Except.error`. -/
noncomputable def build_optimization_model (stations : List GasStationData)
    (route_points : List TripPoint)
    (tank_size_liters efficiency_l_per_100km initial_fuel_pct : ℝ)
    (forecast_days : ℕ) (reserve_liters : ℝ) : Except String FuelModel :=
  if stations.length = 0 then Except.error "No gas stations found along the route"
  else Except.ok
    { stations := stations
      route_points := route_points
      num_stations := stations.length
      num_days := forecast_days
      tank_size := tank_size_liters
      efficiency := efficiency_l_per_100km
      total_km := total_route_km route_points
      total_fuel_needed := total_route_km route_points * efficiency_l_per_100km / 100
      initial_fuel := tank_size_liters * (initial_fuel_pct / 100)
      reserve_liters := reserve_liters
      eff_prices := fun s d =>
        (((stations.get? s).map (fun st => st.effective_price d)).getD 0) }

/-- Total liters purchased over all (station, day) pairs of the model. -/
noncomputable def total_purchased (m : FuelModel) (liters : ℕ → ℕ → ℝ) : ℝ :=
  ∑ s ∈ Finset.range m.num_stations, ∑ d ∈ Finset.range m.num_days, liters s d

/-- The model's objective: Σ effective price × liters. -/
noncomputable def objective_value (m : FuelModel) (liters : ℕ → ℕ → ℝ) : ℝ :=
  ∑ s ∈ Finset.range m.num_stations, ∑ d ∈ Finset.range m.num_days,
    m.eff_prices s d * liters s d

/-- An assignment satisfies every constraint of `build_optimization_model`:
variable domains, fuel sufficiency, tank capacity, link, one fill per
station, and at most 2 fills overall. -/
noncomputable def Feasible (m : FuelModel) (x liters : ℕ → ℕ → ℝ) : Prop :=
  (∀ s < m.num_stations, ∀ d < m.num_days, x s d = 0 ∨ x s d = 1) ∧
  (∀ s < m.num_stations, ∀ d < m.num_days, 0 ≤ liters s d ∧ liters s d ≤ m.tank_size) ∧
  max 0 (m.total_fuel_needed - m.initial_fuel + m.reserve_liters) ≤ total_purchased m liters ∧
  total_purchased m liters + m.initial_fuel ≤ m.tank_size + m.total_fuel_needed ∧
  (∀ s < m.num_stations, ∀ d < m.num_days, liters s d ≤ m.tank_size * x s d) ∧
  (∀ s < m.num_stations, (∑ d ∈ Finset.range m.num_days, x s d) ≤ 1) ∧
  (∑ s ∈ Finset.range m.num_stations, ∑ d ∈ Finset.range m.num_days, x s d) ≤ 2

/-- The (station, day) pairs `extract_solution` keeps: binary value > 0.5 and
liters > 0.1. -/
noncomputable def selected_pairs (m : FuelModel) (x liters : ℕ → ℕ → ℝ) : List (ℕ × ℕ) :=
  (List.range m.num_stations).bind fun s =>
    (List.range m.num_days).filterMap fun d =>
      if (1/2 : ℝ) < x s d ∧ (1/10 : ℝ) < liters s d then some (s, d) else none

/-- One `FillUpStop` as built inside `extract_solution`'s loop. -/
noncomputable def extract_stop (station : GasStationData) (d : ℕ) (liters : ℝ) : FillUpStop :=
  let eff_price := station.effective_price d
  let base_price := (station.base_prices d).getD ((station.base_prices 0).getD (3/2))
  let card_savings := liters * base_price * (station.cashback_percent / 100)
  let today_price := station.effective_price 0
  let timing_savings := if eff_price < today_price then (today_price - eff_price) * liters else 0
  { station := station
    day_offset := d
    liters_to_fill := roundTo 1 liters
    effective_price := roundTo 3 eff_price
    base_price := roundTo 3 base_price
    card_to_use := station.best_card
    fuel_level_before := 0
    fuel_level_after := 0
    km_at_stop := station.km_along_route
    savings_from_card := roundTo 2 card_savings
    savings_from_timing := roundTo 2 timing_savings }

/-- `extract_solution`: collect the selected stops, sort by km position,
accumulate unrounded cost and savings, and tag the result "optimal". -/
noncomputable def extract_solution (m : FuelModel) (x liters : ℕ → ℕ → ℝ) :
    OptimizationResult :=
  let pairs := selected_pairs m x liters
  let stops := pairs.filterMap fun p =>
    (m.stations.get? p.1).map fun st => extract_stop st p.2 (liters p.1 p.2)
  let total_cost := pairs.foldl
    (fun acc p => acc +
      liters p.1 p.2 * (((m.stations.get? p.1).map (fun st => st.effective_price p.2)).getD 0)) 0
  let total_savings := pairs.foldl
    (fun acc p =>
      match m.stations.get? p.1 with
      | none => acc
      | some st =>
        let l := liters p.1 p.2
        let base_price := (st.base_prices p.2).getD ((st.base_prices 0).getD (3/2))
        let card_savings := l * base_price * (st.cashback_percent / 100)
        let eff_price := st.effective_price p.2
        let today_price := st.effective_price 0
        let timing_savings := if eff_price < today_price then (today_price - eff_price) * l else 0
        acc + card_savings + timing_savings) 0
  let sorted_stops := stops.insertionSort (fun a b => a.km_at_stop ≤ b.km_at_stop)
  { stops := sorted_stops
    total_cost := roundTo 2 total_cost
    total_savings := roundTo 2 total_savings
    reasoning :=
      if stops.isEmpty then ["No fill-up needed - you have enough fuel for the trip!"]
      else ["Fill plan computed."]
    fuel_projection := build_fuel_projection sorted_stops m.route_points
      m.initial_fuel m.tank_size m.efficiency
    solver_status := "optimal" }

/-- The external solver's reply to `solve_model` (an external blocking call):
either the solver stack raised an exception, or it returned a termination
status string together with the values of the `x` and `liters` variables.
`solve_model` returns the literal string "solver_not_found" when no solver in
['cplex', 'cbc', 'glpk', 'appsi_highs'] is available. -/
inductive SolverOutcome where
  | raises : String → SolverOutcome
  | status : String → (ℕ → ℕ → ℝ) → (ℕ → ℕ → ℝ) → SolverOutcome

/-- Substring test used on solver statuses. -/
def str_contains (s pat : String) : Bool := decide (pat.data <:+: s.data)

/-- `str.lower()`, expressed on the character list so that it evaluates in
the kernel (same semantics as `String.toLower`). -/
def str_lower (s : String) : String := ⟨s.data.map Char.toLower⟩

/-- `"optimal" in status.lower() or "feasible" in status.lower()` — the
acceptance test of `optimize_fuel_strategy`. -/
def accept_status (status : String) : Bool :=
  str_contains (str_lower status) "optimal" || str_contains (str_lower status) "feasible"

/-- A route point from the request (`{'lat': …, 'lng': …}`). -/
structure RoutePointDict where
  lat : ℝ
  lng : ℝ

/-- `optimize_fuel_strategy` (async entry point; the external solver's reply
is the `solver` argument).  Control flow per the source: no matched stations →
"no_stations" result; solver exception or model `ValueError` → "error: …"
result; accepted status ("optimal"/"feasible" substring) → `extract_solution`;
any other status → "error: <status>" result.  The code after the try/except
(LLM re-explanation) is unreachable and not modelled. -/
noncomputable def optimize_fuel_strategy (solver : SolverOutcome)
    (route_points : List RoutePointDict) (all_stations : List StationDict)
    (user_cards : List CardDict)
    (tank_size_liters efficiency_l_per_100km current_fuel_percent search_radius_km : ℝ)
    (forecast_days : ℕ) : OptimizationResult :=
  let trip_points := route_points.map fun p => TripPoint.mk p.lat p.lng 0
  let stations := find_stations_along_route trip_points all_stations search_radius_km
  if stations.isEmpty then
    { stops := []
      total_cost := 0
      total_savings := 0
      reasoning := ["No gas stations found within search radius of route"]
      fuel_projection := []
      solver_status := "no_stations" }
  else
    let stations2 := add_price_forecasts (apply_card_benefits stations user_cards) forecast_days
    match solver with
    | SolverOutcome.raises msg =>
      { stops := []
        total_cost := 0
        total_savings := 0
        reasoning := ["Optimization Error: " ++ msg]
        fuel_projection := []
        solver_status := "error: " ++ msg }
    | SolverOutcome.status st x liters =>
      match build_optimization_model stations2 trip_points tank_size_liters
        efficiency_l_per_100km current_fuel_percent forecast_days 5 with
      | Except.error msg =>
        { stops := []
          total_cost := 0
          total_savings := 0
          reasoning := ["Optimization Error: " ++ msg]
          fuel_projection := []
          solver_status := "error: " ++ msg }
      | Except.ok m =>
        if accept_status st then extract_solution m x liters
        else
          { stops := []
            total_cost := 0
            total_savings := 0
            reasoning := ["CPLEX Optimization Failed: Status " ++ st]
            fuel_projection := []
            solver_status := "error: " ++ st }

/-! ## Claim C10 — card-benefit resolution -/

theorem foldl_max_init_le : ∀ (l : List ℝ) (a : ℝ), a ≤ l.foldl max a
  | [], _ => le_refl _
  | x :: l, a => le_trans (le_max_left a x) (foldl_max_init_le l (max a x))

theorem mem_le_foldl_max : ∀ (l : List ℝ) (a x : ℝ), x ∈ l → x ≤ l.foldl max a
  | [], _, _, hx => absurd hx (List.not_mem_nil _)
  | y :: l, a, x, hx => by
    rcases List.mem_cons.mp hx with h | h
    · subst h
      exact le_trans (le_max_right a x) (foldl_max_init_le l (max a x))
    · exact mem_le_foldl_max l (max a y) x h

/-- Invariant of the best-cashback fold: the first component is the running
maximum; if nothing beats the accumulator the state is unchanged; if the
final maximum beats the initial accumulator, the chosen provider is that of
the earliest card attaining it. -/
theorem card_fold_invariant : ∀ (cards : List CardDict) (a : ℝ) (b : Option String),
    (cards.foldl card_step (a, b)).1 = (cards.map card_cb).foldl max a ∧
    ((∀ c ∈ cards, card_cb c ≤ a) → cards.foldl card_step (a, b) = (a, b)) ∧
    (a < (cards.foldl card_step (a, b)).1 →
      ∃ c, cards.find? (fun c2 => decide ((cards.foldl card_step (a, b)).1 ≤ card_cb c2)) =
          some c ∧
        card_cb c = (cards.foldl card_step (a, b)).1 ∧
        (cards.foldl card_step (a, b)).2 = some (c.provider.getD "Unknown Card"))
  | [], a, b => by
    refine ⟨rfl, fun _ => rfl, fun h => absurd h (lt_irrefl a)⟩
  | c :: rest, a, b => by
    by_cases h : a < card_cb c
    · have hstep : card_step (a, b) c = (card_cb c, some (c.provider.getD "Unknown Card")) := by
        unfold card_step
        rw [if_pos h]
      have hfold : (c :: rest).foldl card_step (a, b) =
          rest.foldl card_step (card_cb c, some (c.provider.getD "Unknown Card")) := by
        rw [List.foldl_cons, hstep]
      obtain ⟨ih1, ih2, ih3⟩ :=
        card_fold_invariant rest (card_cb c) (some (c.provider.getD "Unknown Card"))
      refine ⟨?_, ?_, ?_⟩
      · rw [hfold, ih1, List.map_cons, List.foldl_cons, max_eq_right h.le]
      · intro hall
        exact absurd (hall c (List.mem_cons_self c rest)) (not_le.mpr h)
      · intro _
        rw [hfold]
        by_cases h2 : card_cb c < (rest.foldl card_step
            (card_cb c, some (c.provider.getD "Unknown Card"))).1
        · obtain ⟨c', hfind, hval, hsnd⟩ := ih3 h2
          refine ⟨c', ?_, hval, hsnd⟩
          rw [List.find?_cons_of_neg, hfind]
          simp only [decide_eq_true_eq]
          exact not_le.mpr h2
        · have hge : card_cb c ≤ (rest.foldl card_step
              (card_cb c, some (c.provider.getD "Unknown Card"))).1 := by
            rw [ih1]
            exact foldl_max_init_le _ _
          have heq : (rest.foldl card_step
              (card_cb c, some (c.provider.getD "Unknown Card"))).1 = card_cb c :=
            le_antisymm (not_lt.mp h2) hge
          have hall : ∀ c' ∈ rest, card_cb c' ≤ card_cb c := by
            intro c' hc'
            have := mem_le_foldl_max (rest.map card_cb) (card_cb c) (card_cb c')
              (List.mem_map_of_mem card_cb hc')
            rw [← ih1] at this
            rw [← heq]
            exact this
          have hunch := ih2 hall
          rw [hunch]
          refine ⟨c, ?_, rfl, rfl⟩
          rw [List.find?_cons_of_pos]
          simp
    · have hstep : card_step (a, b) c = (a, b) := by
        unfold card_step
        rw [if_neg h]
      have hfold : (c :: rest).foldl card_step (a, b) = rest.foldl card_step (a, b) := by
        rw [List.foldl_cons, hstep]
      obtain ⟨ih1, ih2, ih3⟩ := card_fold_invariant rest a b
      refine ⟨?_, ?_, ?_⟩
      · rw [hfold, ih1, List.map_cons, List.foldl_cons, max_eq_left (not_lt.mp h)]
      · intro hall
        rw [hfold]
        exact ih2 fun c' hc' => hall c' (List.mem_cons_of_mem c hc')
      · intro hlt
        rw [hfold] at hlt ⊢
        obtain ⟨c', hfind, hval, hsnd⟩ := ih3 hlt
        refine ⟨c', ?_, hval, hsnd⟩
        rw [List.find?_cons_of_neg, hfind]
        simp only [decide_eq_true_eq]
        exact not_le.mpr (lt_of_le_of_lt (not_lt.mp h) hlt)

/-- C10: `apply_card_benefits` gives every station the same card resolution:
the cashback is the running maximum of the cards' cashbacks (0, with card
`None`, when no card has positive cashback), ties are broken in favour of the
earliest card in list order, and the cards' partner-station lists are never
consulted, so the chosen card does not depend on the station. -/
theorem apply_card_benefits_station_independent (stations : List GasStationData)
    (user_cards : List CardDict) (pf : CardDict → List String) :
    (∀ s ∈ apply_card_benefits stations user_cards,
        s.cashback_percent = (resolve_best_card user_cards).1 ∧
        s.best_card = (resolve_best_card user_cards).2) ∧
    (resolve_best_card user_cards).1 = (user_cards.map card_cb).foldl max 0 ∧
    ((∀ c ∈ user_cards, card_cb c ≤ 0) → resolve_best_card user_cards = (0, none)) ∧
    (0 < (resolve_best_card user_cards).1 →
      ∃ c, user_cards.find?
            (fun c2 => decide ((resolve_best_card user_cards).1 ≤ card_cb c2)) = some c ∧
          card_cb c = (resolve_best_card user_cards).1 ∧
          (resolve_best_card user_cards).2 = some (c.provider.getD "Unknown Card")) ∧
    resolve_best_card (user_cards.map fun c => { c with partner_stations := pf c }) =
      resolve_best_card user_cards := by
  obtain ⟨h1, h2, h3⟩ := card_fold_invariant user_cards 0 none
  refine ⟨?_, h1, h2, h3, ?_⟩
  · intro s hs
    unfold apply_card_benefits at hs
    obtain ⟨s0, _, rfl⟩ := List.mem_map.mp hs
    exact ⟨rfl, rfl⟩
  · unfold resolve_best_card
    rw [List.foldl_map]
    rfl

/-- The card list of the C10 witness: two cards with equal 2 % cashback. -/
def c10_example_cards : List CardDict :=
  [⟨some "CardA", some 2, []⟩, ⟨some "CardB", some 2, ["X"]⟩]

theorem c10_resolve_example : resolve_best_card c10_example_cards = (2, some "CardA") := by
  unfold resolve_best_card c10_example_cards card_step card_cb
  norm_num

/-- Witness for C10: no cards resolve to `(0, none)`; rewriting every card's
partner-station list leaves the example resolution unchanged. -/
theorem apply_card_benefits_station_independent_witness :
    resolve_best_card [] = (0, none) ∧
    resolve_best_card (c10_example_cards.map fun c => { c with partner_stations := ["Z"] }) =
      resolve_best_card c10_example_cards :=
  ⟨(apply_card_benefits_station_independent [] [] (fun _ => [])).2.2.1
      (fun c hc => absurd hc (List.not_mem_nil c)),
   (apply_card_benefits_station_independent [] c10_example_cards (fun _ => ["Z"])).2.2.2.2⟩

/-! ## Claim C6 — route/station matching -/

/-- The update the scan applies to the running minimum distance. -/
noncomputable def minUpd (m : Option ℝ) (d : ℝ) : Option ℝ :=
  match m with
  | none => some d
  | some m' => some (if d < m' then d else m')

theorem scan_fold_min (slat slng : ℝ) :
    ∀ (segs : List (TripPoint × TripPoint)) (st : ScanState),
      (segs.foldl (scan_step slat slng) st).min_dist =
        (segs.map (dist_to slat slng)).foldl minUpd st.min_dist
  | [], _ => rfl
  | seg :: segs, st => by
    rw [List.foldl_cons, List.map_cons, List.foldl_cons,
      scan_fold_min slat slng segs (scan_step slat slng st seg)]
    congr 1
    unfold scan_step minUpd
    rcases st.min_dist with _ | m
    · rfl
    · dsimp only
      by_cases h : dist_to slat slng seg < m
      · rw [if_pos h, if_pos (by simpa using h)]
      · rw [if_neg h, if_neg (by simpa using h)]

theorem foldl_minUpd_some : ∀ (l : List ℝ) (a : ℝ),
    ∃ d, l.foldl minUpd (some a) = some d ∧ d ∈ a :: l ∧ d ≤ a ∧ ∀ x ∈ l, d ≤ x
  | [], a => ⟨a, rfl, List.mem_cons_self a [], le_refl a, fun x hx => absurd hx (List.not_mem_nil x)⟩
  | x :: l, a => by
    have hstep : minUpd (some a) x = some (if x < a then x else a) := rfl
    obtain ⟨d, heq, hmem, hle, hall⟩ := foldl_minUpd_some l (if x < a then x else a)
    refine ⟨d, by rw [List.foldl_cons, hstep, heq], ?_, ?_, ?_⟩
    · rcases List.mem_cons.mp hmem with h | h
      · subst h
        split_ifs
        · exact List.mem_cons_of_mem a (List.mem_cons_self x l)
        · exact List.mem_cons_self a _
      · exact List.mem_cons_of_mem a (List.mem_cons_of_mem x h)
    · refine le_trans hle ?_
      split_ifs with h
      · exact h.le
      · exact le_refl a
    · intro y hy
      rcases List.mem_cons.mp hy with h | h
      · subst h
        refine le_trans hle ?_
        split_ifs with h
        · exact le_refl y
        · exact not_lt.mp h
      · exact hall y h

theorem foldl_minUpd_none_spec (l : List ℝ) :
    (l.foldl minUpd none = none → l = []) ∧
    (∀ d, l.foldl minUpd none = some d → d ∈ l ∧ ∀ x ∈ l, d ≤ x) := by
  rcases l with _ | ⟨x, l⟩
  · exact ⟨fun _ => rfl, fun d hd => by simp [minUpd] at hd⟩
  · constructor
    · intro h
      rw [List.foldl_cons] at h
      have hstep : minUpd none x = some x := rfl
      rw [hstep] at h
      obtain ⟨d, heq, -, -, -⟩ := foldl_minUpd_some l x
      rw [heq] at h
      cases h
    · intro d hd
      rw [List.foldl_cons] at hd
      have hstep : minUpd none x = some x := rfl
      rw [hstep] at hd
      obtain ⟨d', heq, hmem, hle, hall⟩ := foldl_minUpd_some l x
      rw [heq] at hd
      cases hd
      constructor
      · exact hmem
      · intro y hy
        rcases List.mem_cons.mp hy with h | h
        · subst h; exact hle
        · exact hall y h

/-- The filter predicate of `find_stations_along_route`: keep a station iff
its minimum segment distance exists and is within the radius. -/
noncomputable def within_radius (route : List TripPoint) (radius : ℝ) (st : StationDict) :
    Bool :=
  match station_min_dist route st with
  | some d => decide (d ≤ radius)
  | none => false

theorem find_filterMap_eq (route : List TripPoint) (radius : ℝ) :
    ∀ stations : List StationDict,
      (stations.filterMap fun st =>
        let sc := scan_segments st.lat st.lng (routeSegments route)
        match sc.min_dist with
        | some d => if d ≤ radius then some (station_of_dict st sc.closest_km) else none
        | none => none) =
      (stations.filter (within_radius route radius)).map
        (fun st => station_of_dict st (scan_segments st.lat st.lng (routeSegments route)).closest_km)
  | [] => rfl
  | st :: stations => by
    have ih := find_filterMap_eq route radius stations
    rw [List.filterMap_cons]
    rcases hmd : (scan_segments st.lat st.lng (routeSegments route)).min_dist with _ | d
    · have hw : within_radius route radius st = false := by
        unfold within_radius station_min_dist
        rw [hmd]
      rw [List.filter_cons_of_neg (by rw [hw]; exact Bool.false_ne_true)]
      simp only [hmd]
      exact ih
    · by_cases h : d ≤ radius
      · have hw : within_radius route radius st = true := by
          unfold within_radius station_min_dist
          rw [hmd]
          exact decide_eq_true h
        rw [List.filter_cons_of_pos hw]
        simp only [hmd, if_pos h, List.map_cons]
        exact congrArg _ ih
      · have hw : within_radius route radius st = false := by
          unfold within_radius station_min_dist
          rw [hmd]
          exact decide_eq_false h
        rw [List.filter_cons_of_neg (by rw [hw]; exact Bool.false_ne_true)]
        simp only [hmd, if_neg h]
        exact ih

instance : IsTotal GasStationData (fun a b => a.km_along_route ≤ b.km_along_route) :=
  ⟨fun a b => le_total a.km_along_route b.km_along_route⟩

instance : IsTrans GasStationData (fun a b => a.km_along_route ≤ b.km_along_route) :=
  ⟨fun _ _ _ hab hbc => le_trans hab hbc⟩

/-- C6: for every route of at least 2 points and every candidate station
list, `find_stations_along_route` returns, up to the sort's permutation,
exactly the stations whose minimum clamped-projection segment distance is
within the search radius (so every farther station is excluded and every
near station kept), sorted ascending by along-route km; and the tracked
minimum distance really is the minimum of the per-segment clamped-projection
distances. -/
theorem find_stations_filter_and_sorted (route : List TripPoint)
    (stations : List StationDict) (radius : ℝ) (hroute : 2 ≤ route.length) :
    (find_stations_along_route route stations radius).Perm
      ((stations.filter (within_radius route radius)).map
        (fun st => station_of_dict st
          (scan_segments st.lat st.lng (routeSegments route)).closest_km)) ∧
    List.Sorted (fun a b => a.km_along_route ≤ b.km_along_route)
      (find_stations_along_route route stations radius) ∧
    (∀ st ∈ stations, ∀ d, station_min_dist route st = some d →
      d ∈ (routeSegments route).map (dist_to st.lat st.lng) ∧
      ∀ d' ∈ (routeSegments route).map (dist_to st.lat st.lng), d ≤ d') := by
  refine ⟨?_, ?_, ?_⟩
  · unfold find_stations_along_route
    rw [find_filterMap_eq route radius stations]
    exact List.perm_insertionSort _ _
  · unfold find_stations_along_route
    exact List.sorted_insertionSort _ _
  · intro st _ d hd
    unfold station_min_dist scan_segments at hd
    rw [scan_fold_min st.lat st.lng (routeSegments route) ⟨none, 0, 0⟩] at hd
    exact (foldl_minUpd_none_spec ((routeSegments route).map (dist_to st.lat st.lng))).2 d hd

/-- Witness for C6: a concrete 2-point route with an empty candidate list. -/
theorem find_stations_filter_and_sorted_witness :
    (find_stations_along_route [TripPoint.mk 0 0 0, TripPoint.mk 0 1 0] [] 20).Perm
      ((([] : List StationDict).filter
          (within_radius [TripPoint.mk 0 0 0, TripPoint.mk 0 1 0] 20)).map
        (fun st => station_of_dict st
          (scan_segments st.lat st.lng
            (routeSegments [TripPoint.mk 0 0 0, TripPoint.mk 0 1 0])).closest_km)) ∧
    List.Sorted (fun a b => a.km_along_route ≤ b.km_along_route)
      (find_stations_along_route [TripPoint.mk 0 0 0, TripPoint.mk 0 1 0] [] 20) :=
  ⟨(find_stations_filter_and_sorted [TripPoint.mk 0 0 0, TripPoint.mk 0 1 0] [] 20
      (by simp)).1,
   (find_stations_filter_and_sorted [TripPoint.mk 0 0 0, TripPoint.mk 0 1 0] [] 20
      (by simp)).2.1⟩

/-! ## Claim C7 — fuel projection invariants -/

theorem atan2_nonneg (y x : ℝ) (hy : 0 ≤ y) : 0 ≤ atan2 y x := by
  unfold atan2
  split_ifs with h1 h2 h3 h4 h5
  · have h := Real.arctan_strictMono.monotone (div_nonneg hy h1.le)
    rwa [Real.arctan_zero] at h
  · have := Real.neg_pi_div_two_lt_arctan (y / x)
    have := Real.pi_pos
    linarith
  · linarith [h3.2, hy]
  · linarith [Real.pi_pos]
  · linarith [h5.2, hy]
  · exact le_refl 0

theorem haversine_km_nonneg (lat1 lng1 lat2 lng2 : ℝ) :
    0 ≤ haversine_km lat1 lng1 lat2 lng2 := by
  unfold haversine_km
  exact mul_nonneg (by norm_num) (atan2_nonneg _ _ (Real.sqrt_nonneg _))

theorem seg_length_nonneg (seg : TripPoint × TripPoint) : 0 ≤ seg_length seg :=
  haversine_km_nonneg _ _ _ _

theorem foldl_add_seg_length_nonneg :
    ∀ (segs : List (TripPoint × TripPoint)) (acc : ℝ), 0 ≤ acc →
      0 ≤ segs.foldl (fun a seg => a + seg_length seg) acc
  | [], _, h => h
  | seg :: segs, acc, h =>
    foldl_add_seg_length_nonneg segs (acc + seg_length seg)
      (add_nonneg h (seg_length_nonneg seg))

theorem total_route_km_nonneg (route : List TripPoint) : 0 ≤ total_route_km route :=
  foldl_add_seg_length_nonneg (routeSegments route) 0 (le_refl 0)

theorem sample_points_sorted (T : ℝ) (hT : 0 ≤ T) :
    List.Pairwise (fun a b => a ≤ b) ((0 : ℤ) :: sample_points_of T) := by
  have hn : (0 : ℤ) ≤ ⌊T⌋ := Int.floor_nonneg.mpr hT
  have hpy : pyInt T = ⌊T⌋ := if_pos hT
  have hbase : sample_base T = (List.range (⌊T⌋.toNat / 10 + 1)).map (fun (i : ℕ) => 10 * (i : ℤ)) := by
    unfold sample_base
    rw [hpy, if_neg (not_lt.mpr hn)]
  set base : List ℤ := (List.range (⌊T⌋.toNat / 10 + 1)).map (fun (i : ℕ) => 10 * (i : ℤ)) with hbasedef
  have hmem : ∀ x ∈ base, 0 ≤ x ∧ x ≤ ⌊T⌋ := by
    intro x hx
    rw [hbasedef] at hx
    obtain ⟨i, hi, rfl⟩ := List.mem_map.mp hx
    have hi' : i ≤ ⌊T⌋.toNat / 10 := Nat.lt_succ_iff.mp (List.mem_range.mp hi)
    constructor
    · positivity
    · have h10 : (10 : ℕ) * i ≤ ⌊T⌋.toNat :=
        le_trans (Nat.mul_le_mul_left 10 hi')
          (by rw [Nat.mul_comm]; exact Nat.div_mul_le_self ⌊T⌋.toNat 10)
      calc (10 * i : ℤ) = ((10 * i : ℕ) : ℤ) := by push_cast; ring
        _ ≤ (⌊T⌋.toNat : ℤ) := by exact_mod_cast h10
        _ = ⌊T⌋ := Int.toNat_of_nonneg hn
  have hsorted : List.Pairwise (fun a b : ℤ => a ≤ b) base := by
    rw [hbasedef]
    exact (List.pairwise_lt_range _).map _
      (fun a b h => by omega)
  unfold sample_points_of
  rw [hbase, hpy]
  split_ifs with hin
  · exact List.pairwise_cons.mpr ⟨fun x hx => (hmem x hx).1, hsorted⟩
  · refine List.pairwise_cons.mpr ⟨?_, ?_⟩
    · intro x hx
      rcases List.mem_append.mp hx with h | h
      · exact (hmem x h).1
      · rw [List.mem_singleton.mp h]
        exact hn
    · rw [List.pairwise_append]
      refine ⟨hsorted, List.pairwise_singleton _ _, ?_⟩
      intro a ha b hb
      rw [List.mem_singleton.mp hb]
      exact (hmem a ha).2

theorem apply_stops_le_tank (tank : ℝ) (km : ℤ) :
    ∀ (l : List (ℝ × FillUpStop)) (start : ℝ × Option String), start.1 ≤ tank →
      (apply_stops tank km l start).1 ≤ tank
  | [], _, h => h
  | p :: l, start, h => by
    refine apply_stops_le_tank tank km l _ ?_
    dsimp only
    split_ifs with hnear
    · exact min_le_right _ tank
    · exact h

theorem proj_loop_entry_bounds (tank eff : ℝ) (sk : List (ℝ × FillUpStop))
    (htank : 0 < tank) (heff : 0 ≤ eff) :
    ∀ (kms : List ℤ) (prev : ℤ) (fuel : ℝ), fuel ≤ tank →
      List.Chain' (fun a b : ℤ => a ≤ b) (prev :: kms) →
      ∀ s ∈ proj_loop tank eff sk prev fuel kms,
        0 ≤ s.entry.fuel_pct ∧ s.entry.fuel_pct ≤ 100
  | [], _, _, _, _ => by
    intro s hs
    exact absurd hs (List.not_mem_nil s)
  | km :: rest, prev, fuel, hfuel, hchain => by
    intro s hs
    have hprev : prev ≤ km := (List.chain'_cons.mp hchain).1
    have hchain' : List.Chain' (fun a b : ℤ => a ≤ b) (km :: rest) :=
      (List.chain'_cons.mp hchain).2
    have hcons : 0 ≤ ((km : ℝ) - (prev : ℝ)) * eff / 100 := by
      apply div_nonneg _ (by norm_num)
      apply mul_nonneg _ heff
      simp only [sub_nonneg]
      exact_mod_cast hprev
    have hpre : fuel - ((km : ℝ) - (prev : ℝ)) * eff / 100 ≤ tank := by linarith
    have hafter : (apply_stops tank km sk
        (fuel - ((km : ℝ) - (prev : ℝ)) * eff / 100, none)).1 ≤ tank :=
      apply_stops_le_tank tank km sk _ hpre
    unfold proj_loop at hs
    rcases List.mem_cons.mp hs with h | h
    · subst h
      dsimp only
      constructor
      · exact roundTo_nonneg 1 _ (le_max_left 0 _)
      · have hpct : (apply_stops tank km sk
            (fuel - ((km : ℝ) - (prev : ℝ)) * eff / 100, none)).1 / tank * 100 ≤ 100 := by
          have h1 : (apply_stops tank km sk
              (fuel - ((km : ℝ) - (prev : ℝ)) * eff / 100, none)).1 / tank ≤ 1 :=
            (div_le_one htank).mpr hafter
          linarith
        have hmax : max 0 ((apply_stops tank km sk
            (fuel - ((km : ℝ) - (prev : ℝ)) * eff / 100, none)).1 / tank * 100) ≤
            ((100 : ℤ) : ℝ) := by
          push_cast
          exact max_le (by norm_num) hpct
        have := roundTo_le_of_le 1 _ 100 hmax
        push_cast at this
        exact this
    · exact proj_loop_entry_bounds tank eff sk htank heff rest km _ hafter hchain' s h

theorem proj_loop_head_consumption (tank eff : ℝ) (sk : List (ℝ × FillUpStop)) :
    ∀ (kms : List ℤ) (prev : ℤ) (fuel : ℝ) (s : ProjSample),
      (proj_loop tank eff sk prev fuel kms).head? = some s →
      s.fuel_before_stops = fuel - ((s.entry.km : ℝ) - (prev : ℝ)) * eff / 100
  | [], _, _, _, h => by cases h
  | km :: rest, prev, fuel, s, h => by
    unfold proj_loop at h
    rw [List.head?_cons] at h
    cases h
    rfl

theorem proj_loop_consumption_chain (tank eff : ℝ) (sk : List (ℝ × FillUpStop)) :
    ∀ (kms : List ℤ) (prev : ℤ) (fuel : ℝ),
      List.Chain' (fun s1 s2 : ProjSample =>
          s2.fuel_before_stops =
            s1.fuel_after_stops - ((s2.entry.km : ℝ) - (s1.entry.km : ℝ)) * eff / 100)
        (proj_loop tank eff sk prev fuel kms)
  | [], _, _ => List.chain'_nil
  | km :: rest, prev, fuel => by
    unfold proj_loop
    apply List.chain'_cons'.mpr
    constructor
    · intro s2 hs2
      exact proj_loop_head_consumption tank eff sk rest km _ s2 hs2
    · exact proj_loop_consumption_chain tank eff sk rest km _

/-- C7: for every plan, route, positive tank size, initial fuel between 0 and
the tank size, valid (positive) efficiency and non-negative stop fills, every
`fuel_pct` in the projection returned by `build_fuel_projection` lies in
[0, 100]; and along the underlying simulation the pre-fill fuel level at each
sample equals the previous post-fill level minus efficiency × distance / 100
exactly (no drift — only the displayed percentage is clamped and rounded). -/
theorem build_fuel_projection_bounds (stops : List FillUpStop)
    (route_points : List TripPoint) (initial_fuel tank_size efficiency : ℝ)
    (htank : 0 < tank_size) (hinit0 : 0 ≤ initial_fuel) (hinit : initial_fuel ≤ tank_size)
    (heff : 0 < efficiency)
    (hfills : ∀ s ∈ stops, 0 ≤ s.liters_to_fill) :
    (∀ e ∈ build_fuel_projection stops route_points initial_fuel tank_size efficiency,
      0 ≤ e.fuel_pct ∧ e.fuel_pct ≤ 100) ∧
    List.Chain' (fun s1 s2 : ProjSample =>
        s2.fuel_before_stops =
          s1.fuel_after_stops - ((s2.entry.km : ℝ) - (s1.entry.km : ℝ)) * efficiency / 100)
      (proj_loop tank_size efficiency (stop_kms_of stops) 0 initial_fuel
        (sample_points_of (total_route_km route_points))) := by
  constructor
  · intro e he
    unfold build_fuel_projection at he
    obtain ⟨s, hs, rfl⟩ := List.mem_map.mp he
    exact proj_loop_entry_bounds tank_size efficiency (stop_kms_of stops) htank heff.le
      (sample_points_of (total_route_km route_points)) 0 initial_fuel hinit
      ((sample_points_sorted _ (total_route_km_nonneg route_points)).chain') s hs
  · exact proj_loop_consumption_chain tank_size efficiency (stop_kms_of stops) _ 0 initial_fuel

/-- Witness for C7: empty plan over an empty route with tank 50 L, initial
fuel 25 L, efficiency 8 L/100km — the exact-consumption chain of that run. -/
theorem build_fuel_projection_bounds_witness :
    List.Chain' (fun s1 s2 : ProjSample =>
        s2.fuel_before_stops =
          s1.fuel_after_stops - ((s2.entry.km : ℝ) - (s1.entry.km : ℝ)) * 8 / 100)
      (proj_loop 50 8 (stop_kms_of []) 0 25 (sample_points_of (total_route_km []))) :=
  (build_fuel_projection_bounds [] [] 25 50 8 (by norm_num) (by norm_num) (by norm_num)
    (by norm_num) (fun s hs => absurd hs (List.not_mem_nil s))).2

/-! ## Claim C3 — fuel-sufficiency of plans -/

/-- C3 (amended): every feasible assignment of the MILP satisfies
current fuel + total liters purchased ≥ total trip fuel need (the
fuel-sufficiency constraint, with the 5 L reserve, forces it); and the greedy
single-stop plan satisfies it whenever the requested fill is not capped by
the remaining tank space (the uncapped fill is exactly need + 5 L − current,
and 1-decimal rounding costs at most 0.05 L).  When the cap binds, the greedy
plan can fall short — see the counterexample. -/
theorem plans_cover_trip_need :
    (∀ (stations : List GasStationData) (route_points : List TripPoint)
        (tank eff pct : ℝ) (days : ℕ) (m : FuelModel) (x liters : ℕ → ℕ → ℝ),
      build_optimization_model stations route_points tank eff pct days 5 = Except.ok m →
      Feasible m x liters →
      m.total_fuel_needed ≤ m.initial_fuel + total_purchased m liters) ∧
    (∀ (stations : List GasStationData) (tank init eff total_km fuel_needed : ℝ)
        (route : List TripPoint) (b : GasStationData) (rest : List GasStationData),
      fuel_needed = total_km * eff / 100 →
      ¬ fuel_needed ≤ init →
      greedy_candidates stations init eff = b :: rest →
      fuel_needed + 5 - init ≤ tank - (init - b.km_along_route * eff / 100) →
      fuel_needed ≤ init +
        ((solve_greedy_heuristic stations tank init fuel_needed eff total_km route).stops.map
          (fun s => s.liters_to_fill)).sum) := by
  constructor
  · intro stations route_points tank eff pct days m x liters hbuild hfeas
    have h5 : m.reserve_liters = 5 := by
      unfold build_optimization_model at hbuild
      split_ifs at hbuild
      injection hbuild with h
      rw [← h]
    obtain ⟨-, -, hsuff, -⟩ := hfeas
    have hmax := le_trans (le_max_right (0 : ℝ)
      (m.total_fuel_needed - m.initial_fuel + m.reserve_liters)) hsuff
    rw [h5] at hmax
    linarith
  · intro stations tank init eff total_km fuel_needed route b rest hneed hlt hcand huncap
    unfold solve_greedy_heuristic
    rw [if_neg hlt, hcand]
    dsimp only
    rw [List.map_cons, List.map_nil, List.sum_cons, List.sum_nil]
    dsimp only
    rw [show (total_km - b.km_along_route) * eff / 100 + 5 -
        (init - b.km_along_route * eff / 100) = fuel_needed + 5 - init from by
      rw [hneed]; ring]
    rw [min_eq_left huncap]
    have hround := le_roundTo 1 (fuel_needed + 5 - init)
    have h20 : (1 : ℝ) / (2 * 10 ^ 1) = 1/20 := by norm_num
    rw [h20] at hround
    linarith

/-- The single candidate station of the C3 scenarios: on the route start
(km 0), base price 1.50, no cashback. -/
noncomputable def c3_station : GasStationData :=
  { id := "s1"
    name := "S"
    brand := "B"
    lat := 0
    lng := 0
    address := ""
    km_along_route := 0
    base_prices := fun d => if d = 0 then some (3/2) else none
    best_card := none
    cashback_percent := 0 }

theorem c3_candidates : greedy_candidates [c3_station] 10 8 = [c3_station] := by
  unfold greedy_candidates
  rw [List.filter_cons_of_pos]
  · rw [List.filter_nil]
    simp [List.insertionSort, List.orderedInsert]
  · apply decide_eq_true
    norm_num [c3_station]

/-- C3 counterexample: tank 50 L, current fuel 10 L, trip 1000 km at
8 L/100km (need 80 L).  The greedy fill is capped by the remaining tank space
at 40 L, so current fuel + total purchased = 50 < 80: the plan strands the
vehicle even though total purchased liters are non-zero. -/
theorem greedy_capped_falls_short :
    ((solve_greedy_heuristic [c3_station] 50 10 80 8 1000 []).stops.map
        (fun s => s.liters_to_fill)).sum = 40 ∧
    (10 : ℝ) + 40 < 80 ∧ (40 : ℝ) ≠ 0 := by
  refine ⟨?_, by norm_num, by norm_num⟩
  unfold solve_greedy_heuristic
  rw [if_neg (by norm_num : ¬(80 : ℝ) ≤ 10), c3_candidates]
  dsimp only
  rw [List.map_cons, List.map_nil, List.sum_cons, List.sum_nil]
  dsimp only
  rw [show ((1000 : ℝ) - c3_station.km_along_route) * 8 / 100 + 5 -
      (10 - c3_station.km_along_route * 8 / 100) = 75 from by norm_num [c3_station]]
  rw [show (50 : ℝ) - (10 - c3_station.km_along_route * 8 / 100) = 40 from by
    norm_num [c3_station]]
  rw [min_eq_right (by norm_num : (40 : ℝ) ≤ 75)]
  unfold roundTo pyRound
  norm_num

/-- The model built for the C3 witness: one station, empty route (trip need
0 L), full 50 L tank. -/
noncomputable def c3_model : FuelModel :=
  { stations := [c3_station]
    route_points := []
    num_stations := ([c3_station] : List GasStationData).length
    num_days := 7
    tank_size := 50
    efficiency := 8
    total_km := total_route_km []
    total_fuel_needed := total_route_km [] * 8 / 100
    initial_fuel := 50 * ((100 : ℝ) / 100)
    reserve_liters := 5
    eff_prices := fun s d =>
      (((([c3_station] : List GasStationData).get? s).map
        (fun st => st.effective_price d)).getD 0) }

theorem c3_build_ok :
    build_optimization_model [c3_station] [] 50 8 100 7 5 = Except.ok c3_model := by
  unfold build_optimization_model c3_model
  rw [if_neg (by simp)]

theorem c3_total_route_km_nil : total_route_km ([] : List TripPoint) = 0 := rfl

theorem c3_feasible : Feasible c3_model (fun _ _ => 0) (fun _ _ => 0) := by
  have hpur : total_purchased c3_model (fun _ _ => 0) = 0 := by
    unfold total_purchased
    simp
  refine ⟨fun s _ d _ => Or.inl rfl, fun s _ d _ => ⟨le_refl 0, by norm_num [c3_model]⟩,
    ?_, ?_, fun s _ d _ => by norm_num [c3_model], fun s _ => by simp, by simp⟩
  · rw [hpur]
    unfold c3_model
    dsimp only
    rw [c3_total_route_km_nil]
    norm_num
  · rw [hpur]
    unfold c3_model
    dsimp only
    rw [c3_total_route_km_nil]
    norm_num

theorem c3_greedy_candidates_16 : greedy_candidates [c3_station] 10 8 = c3_station :: [] :=
  c3_candidates

/-- Witness for C3: the MILP half at the one-station, empty-route model with
the all-zero feasible assignment; the greedy half at tank 50 L, fuel 10 L,
trip 200 km at 8 L/100km (need 16 L), where the fill is uncapped. -/
theorem plans_cover_trip_need_witness :
    c3_model.total_fuel_needed ≤
      c3_model.initial_fuel + total_purchased c3_model (fun _ _ => 0) ∧
    (16 : ℝ) ≤ 10 +
      ((solve_greedy_heuristic [c3_station] 50 10 16 8 200 []).stops.map
        (fun s => s.liters_to_fill)).sum :=
  ⟨plans_cover_trip_need.1 [c3_station] [] 50 8 100 7 c3_model
      (fun _ _ => 0) (fun _ _ => 0) c3_build_ok c3_feasible,
   plans_cover_trip_need.2 [c3_station] 50 10 8 200 16 [] c3_station []
      (by norm_num) (by norm_num) c3_greedy_candidates_16
      (by norm_num [c3_station])⟩

/-! ## Claims C8 and C1 — optimizer entry-point outcomes -/

/-- A 2-point route used by the C8 scenarios. -/
noncomputable def c8_route : List RoutePointDict := [⟨0, 0⟩, ⟨0, 1⟩]

/-- C8 (amended): for a route of at least 2 points such that no candidate
station is within the search radius of any segment, `optimize_fuel_strategy`
returns (does not raise) a result with an empty stops list and the
solver-status tag `"no_stations"`. -/
theorem optimize_no_stations_result (solver : SolverOutcome)
    (route_points : List RoutePointDict) (all_stations : List StationDict)
    (user_cards : List CardDict) (tank eff pct radius : ℝ) (days : ℕ)
    (hroute : 2 ≤ route_points.length)
    (hfar : ∀ st ∈ all_stations, ∀ d,
      station_min_dist (route_points.map fun p => TripPoint.mk p.lat p.lng 0) st = some d →
        radius < d) :
    (optimize_fuel_strategy solver route_points all_stations user_cards
        tank eff pct radius days).stops = [] ∧
    (optimize_fuel_strategy solver route_points all_stations user_cards
        tank eff pct radius days).solver_status = "no_stations" := by
  have hfilter : all_stations.filter
      (within_radius (route_points.map fun p => TripPoint.mk p.lat p.lng 0) radius) = [] := by
    rw [List.filter_eq_nil]
    intro st hst
    unfold within_radius
    rcases hmd : station_min_dist (route_points.map fun p => TripPoint.mk p.lat p.lng 0) st
      with _ | d
    · rw [hmd]
      simp
    · rw [hmd]
      simp only [decide_eq_true_eq]
      exact not_le.mpr (hfar st hst d hmd)
  have hfind : find_stations_along_route
      (route_points.map fun p => TripPoint.mk p.lat p.lng 0) all_stations radius = [] := by
    unfold find_stations_along_route
    rw [find_filterMap_eq, hfilter]
    rfl
  simp only [optimize_fuel_strategy]
  rw [hfind]
  exact ⟨rfl, rfl⟩

/-- C8 counterexample (to the claim's exact tag): with a 2-point route and no
station within radius, the returned tag is the underscore string
`"no_stations"`, not the hyphenated `"no-stations"` the claim states. -/
theorem optimize_no_stations_tag_mismatch :
    (optimize_fuel_strategy
        (SolverOutcome.status "solver_not_found" (fun _ _ => 0) (fun _ _ => 0))
        c8_route [] [] 50 8 30 20 7).solver_status = "no_stations" ∧
    (optimize_fuel_strategy
        (SolverOutcome.status "solver_not_found" (fun _ _ => 0) (fun _ _ => 0))
        c8_route [] [] 50 8 30 20 7).stops = [] ∧
    ("no_stations" : String) ≠ "no-stations" :=
  ⟨rfl, rfl, by decide⟩

/-- Witness for C8 at a concrete input: 2-point route, empty station list
(so no station is within the radius, vacuously). -/
theorem optimize_no_stations_result_witness :
    (optimize_fuel_strategy
        (SolverOutcome.raises "ApplicationError: No solver")
        c8_route [] [] 50 8 30 20 7).stops = [] ∧
    (optimize_fuel_strategy
        (SolverOutcome.raises "ApplicationError: No solver")
        c8_route [] [] 50 8 30 20 7).solver_status = "no_stations" :=
  optimize_no_stations_result (SolverOutcome.raises "ApplicationError: No solver")
    c8_route [] [] 50 8 30 20 7 (by simp [c8_route])
    (fun st hst => absurd hst (List.not_mem_nil st))

/-- The 2-point route of the C1 scenario (both points at the origin, so the
station at the origin is at distance 0 from the single segment). -/
noncomputable def c1_route : List RoutePointDict := [⟨0, 0⟩, ⟨0, 0⟩]

/-- The candidate station of the C1 scenario, located on the route. -/
noncomputable def c1_station_dict : StationDict :=
  { id := some "s1"
    place_id := none
    name := some "S"
    brand := none
    address := none
    lat := 0
    lng := 0
    regular := some (3/2) }

theorem c1_dist_zero :
    dist_to 0 0 (TripPoint.mk 0 0 0, TripPoint.mk 0 0 0) = 0 := by
  unfold dist_to point_to_segment_distance
  dsimp only
  rw [if_pos (by norm_num)]
  exact haversine_km_self 0 0

theorem c1_scan :
    scan_segments 0 0 [(TripPoint.mk 0 0 0, TripPoint.mk 0 0 0)] =
      ScanState.mk (some 0) 0 0 := by
  unfold scan_segments scan_step
  rw [List.foldl_cons, List.foldl_nil]
  have hlen : seg_length (TripPoint.mk 0 0 0, TripPoint.mk 0 0 0) = 0 :=
    haversine_km_self 0 0
  dsimp only
  rw [if_pos rfl, c1_dist_zero, hlen]
  norm_num

theorem c1_find :
    find_stations_along_route [TripPoint.mk 0 0 0, TripPoint.mk 0 0 0]
      [c1_station_dict] 20 = [station_of_dict c1_station_dict 0] := by
  unfold find_stations_along_route
  rw [List.filterMap_cons, List.filterMap_nil]
  have hsegs : routeSegments [TripPoint.mk 0 0 0, TripPoint.mk 0 0 0] =
      [(TripPoint.mk 0 0 0, TripPoint.mk 0 0 0)] := rfl
  have hlat : c1_station_dict.lat = 0 := rfl
  have hlng : c1_station_dict.lng = 0 := rfl
  rw [hsegs, hlat, hlng, c1_scan]
  dsimp only
  rw [if_pos (by norm_num : (0 : ℝ) ≤ 20)]
  simp [List.insertionSort, List.orderedInsert]

/-- C1: when the matched-station list is non-empty and the solver is
unavailable (`solve_model` returns "solver_not_found"), the code returns an
error-tagged result with an empty stops list — it never reaches
`solve_greedy_heuristic`, contradicting the spec's designed degraded mode,
the function's own docstring ("uses Greedy Heuristic … exclusively") and the
fallback's docstring ("Fallback heuristic when no solver is available"). -/
theorem optimize_error_tag_on_solver_not_found :
    (optimize_fuel_strategy
        (SolverOutcome.status "solver_not_found" (fun _ _ => 0) (fun _ _ => 0))
        c1_route [c1_station_dict] [] 50 8 30 20 7).solver_status =
      "error: solver_not_found" ∧
    (optimize_fuel_strategy
        (SolverOutcome.status "solver_not_found" (fun _ _ => 0) (fun _ _ => 0))
        c1_route [c1_station_dict] [] 50 8 30 20 7).stops = [] ∧
    ¬ str_contains (str_lower "error: solver_not_found") "heuristic" = true := by
  have htrip : c1_route.map (fun p => TripPoint.mk p.lat p.lng 0) =
      [TripPoint.mk 0 0 0, TripPoint.mk 0 0 0] := rfl
  simp only [optimize_fuel_strategy]
  rw [htrip, c1_find]
  exact ⟨rfl, rfl, by decide⟩

end Fuelio
